import Mathlib

/-!
Verification of the SQL-generating predicate-expression compiler
(`createSqlTranspiler` / `generateSql` and its default formatter bundle).

The embedding mirrors the final revision of `generateSql.ts`: expression
nodes form an object graph, and the renderer's cycle check compares nodes
by JavaScript object identity (`meta.visited.includes(where)`).  Object
identity is modelled by giving every expression node a numeric identity in
a finite store (`Store`): an id plays the role of an object reference, two
occurrences of the same id are the same object, and a cyclic object graph
(which JavaScript permits, e.g. `clause[1] = clause`) is a store in which a
node's child id leads back to the node.  Values (`SqlValue`) carry no
identity because `formatValue` never consults the `visited` list.
-/

/-- Literal or field-reference value, after `SqlValue = SqlField | number |
string | null` in the source.  Numbers are modelled as integers (every
number the program's tests and spec use is an integer; rendering is
decimal text either way). -/
inductive SqlValue where
  | field (key : Nat)
  | num (n : Int)
  | str (s : String)
  | null
deriving DecidableEq, Repr

/-- One expression node of the object graph, after the source's
`SqlOperator` tagged-array variants.  Children of `and`/`or`/`not` and the
target of a macro reference are node ids (object references); comparison
operands are values.  The source tag `macro` is spelled `macroRef` here.
In the source's type the `=`/`!=` variant requires at least one comparison
value after the left operand; the renderer itself destructures
`[sign, a, ...rest]` with `rest` arbitrary, which is what `rest : List
SqlValue` models. -/
inductive SqlNode where
  | field (key : Nat)
  | and (a b : Nat)
  | or (a b : Nat)
  | not (a : Nat)
  | lt (a b : SqlValue)
  | gt (a b : SqlValue)
  | eq (a : SqlValue) (rest : List SqlValue)
  | ne (a : SqlValue) (rest : List SqlValue)
  | isEmpty (a : SqlValue)
  | notEmpty (a : SqlValue)
  | macroRef (name : String)
deriving DecidableEq, Repr

/-- The object graph: each pair is one node object, keyed by its identity. -/
abbrev Store := List (Nat × SqlNode)

/-- Dereference a node id, i.e. follow an object reference. -/
def lookupNode (store : Store) (id : Nat) : Option SqlNode :=
  (store.find? fun p => p.1 == id).map Prod.snd

/-- Lookup in the macro table (`meta.macros[name]`); the body is a node id. -/
def lookupMacro (macros : List (String × Nat)) (name : String) : Option Nat :=
  (macros.find? fun p => p.1 == name).map Prod.snd

/-- Lookup in the per-call field map (`fields[key]`). -/
def lookupField (fields : List (Nat × String)) (key : Nat) : Option String :=
  (fields.find? fun p => p.1 == key).map Prod.snd

/-- Error taxonomy of the transpiler, one constructor per distinct thrown
or returned `Error` of the source.  `danglingNode` has no source
counterpart: it is the embedding's name for dereferencing an id that is
not in the store, a state a JavaScript object graph cannot be in (an
object reference always resolves); no theorem relies on it. -/
inductive SqlError where
  | circularDependency
  | macroNotFound (name : String)
  | unknownField (key : Nat)
  | unknownDialect (dialect : String)
  | danglingNode (id : Nat)
deriving DecidableEq, Repr

/-- The message text each source `Error` carries. -/
def SqlError.message : SqlError → String
  | .circularDependency => "Circular dependency detected"
  | .macroNotFound name => "Macro not found: " ++ name
  | .unknownField key => "Unknown field number: " ++ toString key
  | .unknownDialect dialect => "No formatter found for dialect: " ++ dialect
  | .danglingNode id => "Dangling node id: " ++ toString id

/-- The default formatter's `formatValue`, parameterised by the bundle's
`formatColumn` (reached through `meta.formatter` in the source).  The
guard `if (!columnName) throw` is JavaScript falsiness: a missing entry
and an empty-string entry both raise `Unknown field number`. -/
def defaultFormatValue (formatColumn : String → String)
    (fields : List (Nat × String)) : SqlValue → Except SqlError String
  | SqlValue.field key =>
    match lookupField fields key with
    | some columnName =>
      if columnName = "" then Except.error (SqlError.unknownField key)
      else Except.ok (formatColumn columnName)
    | none => Except.error (SqlError.unknownField key)
  | SqlValue.str s => Except.ok ("'" ++ s ++ "'")
  | SqlValue.num n => Except.ok (toString n)
  | SqlValue.null => Except.ok "NULL"

/-- Render a list of values left to right, stopping at the first failure
(the semantics of `rest.map(f => formatValue(f, meta))` under thrown
exceptions). -/
def formatValueList (fv : SqlValue → Except SqlError String) :
    List SqlValue → Except SqlError (List String)
  | [] => Except.ok []
  | v :: vs => do
    let s ← fv v
    let ss ← formatValueList fv vs
    Except.ok (s :: ss)

/-- The comparison keyword chosen inside the `'=' | '!='` case when there
is exactly one comparison value. -/
def comparisonSign (neg : Bool) (b : SqlValue) : String :=
  match b with
  | SqlValue.null => if neg then "IS NOT" else "IS"
  | _ => if neg then "<>" else "="

/-- Body of the `'=' | '!='` case of `defaultFormatOperator`: `neg` is
whether the tag was `'!='`. -/
def formatComparison (fv : SqlValue → Except SqlError String) (neg : Bool)
    (a : SqlValue) (rest : List SqlValue) : Except SqlError String :=
  match rest with
  | [b] => do
    let sa ← fv a
    let sb ← fv b
    Except.ok (sa ++ " " ++ comparisonSign neg b ++ " " ++ sb)
  | _ => do
    let sa ← fv a
    let ss ← formatValueList fv rest
    Except.ok (sa ++ " " ++ (if neg then "NOT IN" else "IN") ++ " (" ++
      String.intercalate ", " ss ++ ")")

/-- Whether an `and`/`or` child gets parenthesised:
`['and', 'or'].includes(c[0])` on the child's own top-level tag. -/
def needsWrapped (store : Store) (childId : Nat) : Bool :=
  match lookupNode store childId with
  | some (SqlNode.and _ _) => true
  | some (SqlNode.or _ _) => true
  | _ => false

/-- Parenthesise a rendered child clause exactly when `needsWrapped`. -/
def wrapClause (store : Store) (childId : Nat) (s : String) : String :=
  if needsWrapped store childId then "(" ++ s ++ ")" else s

/-- The identities present in the store. -/
def storeIds (store : Store) : List Nat := store.map Prod.fst

theorem lookupNode_mem_storeIds {store : Store} {id : Nat} {node : SqlNode}
    (h : lookupNode store id = some node) : id ∈ storeIds store := by
  unfold lookupNode at h
  rcases Option.map_eq_some'.mp h with ⟨p, hp, _⟩
  have hmem := List.mem_of_find?_eq_some hp
  have hkey := List.find?_some hp
  have : p.1 = id := by simpa using hkey
  exact this ▸ List.mem_map.mpr ⟨p, hmem, rfl⟩

theorem visited_measure_lt {store : Store} {id : Nat} {visited : List Nat}
    (hmem : id ∉ visited) (hid : id ∈ storeIds store) :
    ((storeIds store).toFinset \ (visited ++ [id]).toFinset).card <
      ((storeIds store).toFinset \ visited.toFinset).card := by
  apply Finset.card_lt_card
  rw [Finset.ssubset_iff_of_subset]
  · refine ⟨id, ?_, ?_⟩
    · simp [hid, hmem]
    · simp
  · intro x hx
    simp only [Finset.mem_sdiff, List.mem_toFinset, List.mem_append,
      List.mem_singleton] at hx ⊢
    exact ⟨hx.1, fun hx1 => hx.2 (Or.inl hx1)⟩

/-- The default formatter's `formatOperator` (`defaultFormatOperator` in the
source), closed over the built-in bundles: in every built-in formatter the
`formatOperator` and `formatValue` capabilities reached through
`meta.formatter` are the default ones, so the open recursion through
`meta.formatter.formatOperator` is instantiated with this very function and
the column renderer `formatColumn` stands in for the whole bundle.
`visited` is the ancestor path of object identities; it is extended, by
value, with the current node before children are rendered, so sibling
branches receive independent snapshots. -/
def defaultFormatOperator (store : Store) (macros : List (String × Nat))
    (fields : List (Nat × String)) (formatColumn : String → String)
    (id : Nat) (visited : List Nat) : Except SqlError String :=
  if hmem : id ∈ visited then Except.error SqlError.circularDependency
  else
    match hfind : lookupNode store id with
    | none => Except.error (SqlError.danglingNode id)
    | some (SqlNode.and a b) => do
      let sa ← defaultFormatOperator store macros fields formatColumn a (visited ++ [id])
      let sb ← defaultFormatOperator store macros fields formatColumn b (visited ++ [id])
      Except.ok (wrapClause store a sa ++ " AND " ++ wrapClause store b sb)
    | some (SqlNode.or a b) => do
      let sa ← defaultFormatOperator store macros fields formatColumn a (visited ++ [id])
      let sb ← defaultFormatOperator store macros fields formatColumn b (visited ++ [id])
      Except.ok (wrapClause store a sa ++ " OR " ++ wrapClause store b sb)
    | some (SqlNode.not a) => do
      let s ← defaultFormatOperator store macros fields formatColumn a (visited ++ [id])
      Except.ok ("NOT (" ++ s ++ ")")
    | some (SqlNode.lt a b) => do
      let sa ← defaultFormatValue formatColumn fields a
      let sb ← defaultFormatValue formatColumn fields b
      Except.ok (sa ++ " < " ++ sb)
    | some (SqlNode.gt a b) => do
      let sa ← defaultFormatValue formatColumn fields a
      let sb ← defaultFormatValue formatColumn fields b
      Except.ok (sa ++ " > " ++ sb)
    | some (SqlNode.eq a rest) =>
      formatComparison (defaultFormatValue formatColumn fields) false a rest
    | some (SqlNode.ne a rest) =>
      formatComparison (defaultFormatValue formatColumn fields) true a rest
    | some (SqlNode.isEmpty a) => do
      let s ← defaultFormatValue formatColumn fields a
      Except.ok (s ++ " IS NULL")
    | some (SqlNode.notEmpty a) => do
      let s ← defaultFormatValue formatColumn fields a
      Except.ok (s ++ " IS NOT NULL")
    | some (SqlNode.field key) =>
      defaultFormatValue formatColumn fields (SqlValue.field key)
    | some (SqlNode.macroRef name) =>
      match lookupMacro macros name with
      | none => Except.error (SqlError.macroNotFound name)
      | some bodyId =>
        defaultFormatOperator store macros fields formatColumn bodyId (visited ++ [id])
termination_by ((storeIds store).toFinset \ visited.toFinset).card
decreasing_by
  all_goals exact visited_measure_lt hmem (lookupNode_mem_storeIds hfind)

/-- The body of `defaultFormatOperator` on an already-dereferenced node: the
dispatch over the node's tag, with the ancestor path already extended by
the node's identity.  `defaultFormatOperator` equals this dispatcher
whenever its cycle check passes and the id dereferences (the equation
`defaultFormatOperator_eq` below); having the dispatcher as a separate,
structurally-reducing definition makes that one step usable in proofs. -/
def formatNode (store : Store) (macros : List (String × Nat))
    (fields : List (Nat × String)) (formatColumn : String → String)
    (id : Nat) (visited : List Nat) : SqlNode → Except SqlError String
  | SqlNode.and a b => do
    let sa ← defaultFormatOperator store macros fields formatColumn a (visited ++ [id])
    let sb ← defaultFormatOperator store macros fields formatColumn b (visited ++ [id])
    Except.ok (wrapClause store a sa ++ " AND " ++ wrapClause store b sb)
  | SqlNode.or a b => do
    let sa ← defaultFormatOperator store macros fields formatColumn a (visited ++ [id])
    let sb ← defaultFormatOperator store macros fields formatColumn b (visited ++ [id])
    Except.ok (wrapClause store a sa ++ " OR " ++ wrapClause store b sb)
  | SqlNode.not a => do
    let s ← defaultFormatOperator store macros fields formatColumn a (visited ++ [id])
    Except.ok ("NOT (" ++ s ++ ")")
  | SqlNode.lt a b => do
    let sa ← defaultFormatValue formatColumn fields a
    let sb ← defaultFormatValue formatColumn fields b
    Except.ok (sa ++ " < " ++ sb)
  | SqlNode.gt a b => do
    let sa ← defaultFormatValue formatColumn fields a
    let sb ← defaultFormatValue formatColumn fields b
    Except.ok (sa ++ " > " ++ sb)
  | SqlNode.eq a rest =>
    formatComparison (defaultFormatValue formatColumn fields) false a rest
  | SqlNode.ne a rest =>
    formatComparison (defaultFormatValue formatColumn fields) true a rest
  | SqlNode.isEmpty a => do
    let s ← defaultFormatValue formatColumn fields a
    Except.ok (s ++ " IS NULL")
  | SqlNode.notEmpty a => do
    let s ← defaultFormatValue formatColumn fields a
    Except.ok (s ++ " IS NOT NULL")
  | SqlNode.field key =>
    defaultFormatValue formatColumn fields (SqlValue.field key)
  | SqlNode.macroRef name =>
    match lookupMacro macros name with
    | none => Except.error (SqlError.macroNotFound name)
    | some bodyId =>
      defaultFormatOperator store macros fields formatColumn bodyId (visited ++ [id])

theorem defaultFormatOperator_circ (store : Store) (macros : List (String × Nat))
    (fields : List (Nat × String)) (formatColumn : String → String)
    (id : Nat) (visited : List Nat) (h : id ∈ visited) :
    defaultFormatOperator store macros fields formatColumn id visited =
      Except.error SqlError.circularDependency := by
  rw [defaultFormatOperator]
  simp [h]

theorem defaultFormatOperator_dangling (store : Store) (macros : List (String × Nat))
    (fields : List (Nat × String)) (formatColumn : String → String)
    (id : Nat) (visited : List Nat) (h : id ∉ visited)
    (hfind : lookupNode store id = none) :
    defaultFormatOperator store macros fields formatColumn id visited =
      Except.error (SqlError.danglingNode id) := by
  rw [defaultFormatOperator, dif_neg h]
  split
  · rfl
  all_goals rename_i heq; rw [hfind] at heq; cases heq

theorem defaultFormatOperator_eq (store : Store) (macros : List (String × Nat))
    (fields : List (Nat × String)) (formatColumn : String → String)
    (id : Nat) (visited : List Nat) (node : SqlNode) (h : id ∉ visited)
    (hfind : lookupNode store id = some node) :
    defaultFormatOperator store macros fields formatColumn id visited =
      formatNode store macros fields formatColumn id visited node := by
  rw [defaultFormatOperator, dif_neg h]
  split
  · rename_i heq; rw [hfind] at heq; cases heq
  all_goals rename_i heq; rw [hfind] at heq; injection heq with heq'; rw [heq']; rfl

/-- The statement shape built by `generateSql` and consumed by a bundle's
`formatStatement` (`SqlStatement` in the source; `type`/`from`/`where`
are spelled `type`/`fromTable`/`whereClause`).  The where-expression is a
node id of the object graph. -/
structure SqlStatement where
  type : String
  list : String
  fromTable : Option String
  whereClause : Option Nat
  limit : Option Nat

/-- The `FROM` part of the parts array: pushed only when `sql.from` is
truthy, so an absent and an empty-string table name both omit it. -/
def fromParts : Option String → List String
  | some t => if t = "" then [] else ["FROM " ++ t]
  | none => []

/-- The `LIMIT` part: `if (sql.limit)` is JavaScript truthiness, so a
limit of `0` is omitted exactly like an absent limit. -/
def limitParts : Option Nat → List String
  | some l => if l = 0 then [] else ["LIMIT " ++ toString l]
  | none => []

/-- The `TOP` part of the sqlserver statement renderer; the same
truthiness guard as `limitParts`. -/
def topParts : Option Nat → List String
  | some l => if l = 0 then [] else ["TOP " ++ toString l]
  | none => []

/-- The `WHERE` part of the parts array: present only when the statement
has a where-expression, and a failure raised while rendering it
propagates (`if (sql.where) parts.push(...)` with a throwing render). -/
def whereParts (formatColumn : String → String) (store : Store)
    (macros : List (String × Nat)) (fields : List (Nat × String)) :
    Option Nat → Except SqlError (List String)
  | some wid =>
    (defaultFormatOperator store macros fields formatColumn wid []).map
      (fun w => ["WHERE " ++ w])
  | none => Except.ok []

/-- The default bundle's `formatStatement`: `SELECT <list> [FROM <table>]
[WHERE <where>] [LIMIT <n>]`, the parts joined by single spaces. -/
def defaultFormatStatement (formatColumn : String → String) (store : Store)
    (macros : List (String × Nat)) (fields : List (Nat × String))
    (sql : SqlStatement) : Except SqlError String := do
  let wparts ← whereParts formatColumn store macros fields sql.whereClause
  Except.ok (String.intercalate " "
    ([sql.type, sql.list] ++ fromParts sql.fromTable ++ wparts ++
      limitParts sql.limit))

/-- The sqlserver bundle's `formatStatement` override: `SELECT [TOP <n>]
<list> [FROM <table>] [WHERE <where>]`, with no trailing `LIMIT`. -/
def sqlserverFormatStatement (formatColumn : String → String) (store : Store)
    (macros : List (String × Nat)) (fields : List (Nat × String))
    (sql : SqlStatement) : Except SqlError String := do
  let wparts ← whereParts formatColumn store macros fields sql.whereClause
  Except.ok (String.intercalate " "
    ([sql.type] ++ topParts sql.limit ++ [sql.list] ++ fromParts sql.fromTable ++
      wparts))

/-- A dialect's formatter bundle.  In the source a bundle also carries
`formatValue` and `formatOperator`; every built-in bundle leaves those at
the defaults, so the embedding keeps only the two capabilities the
built-ins vary: the statement renderer (which receives the bundle's
column renderer, standing in for `meta.formatter`) and the column
renderer. -/
structure SqlFormatter where
  formatColumn : String → String
  formatStatement : (String → String) → Store → List (String × Nat) →
    List (Nat × String) → SqlStatement → Except SqlError String

/-- The default bundle's `formatColumn`: double-quote the column name. -/
def doubleQuoteColumn : String → String := fun name => "\"" ++ name ++ "\""

/-- The mysql override of `formatColumn`: backtick-quote the column name. -/
def backtickColumn : String → String := fun name => "`" ++ name ++ "`"

/-- The shared base bundle (`defaultFormatter`): double-quoted columns,
default statement shape. -/
def defaultFormatter : SqlFormatter where
  formatColumn := doubleQuoteColumn
  formatStatement := defaultFormatStatement

/-- The built-in dialect registry: sqlserver overrides only the statement
renderer, postgres is the base bundle unchanged, mysql overrides only the
column renderer (backtick quoting). -/
def builtInFormatters : List (String × SqlFormatter) :=
  [("sqlserver", { defaultFormatter with formatStatement := sqlserverFormatStatement }),
   ("postgres", defaultFormatter),
   ("mysql", { defaultFormatter with formatColumn := backtickColumn })]

/-- Registry lookup (`formatters[dialect]`). -/
def lookupFormatter (formatters : List (String × SqlFormatter)) (dialect : String) :
    Option SqlFormatter :=
  (formatters.find? fun p => p.1 == dialect).map Prod.snd

/-- The two-variant `Result<string, Error>` the façade returns.  In the
source the success variant has `error?: undefined` and the failure
variant `data?: undefined`, so by its type the two data forms are never
populated together; the two constructors model exactly that. -/
inductive SqlResult where
  | ok (data : String)
  | err (error : SqlError)
deriving DecidableEq, Repr

/-- A compile call's query shape. -/
structure SqlQuery where
  limit : Option Nat
  whereClause : Option Nat

/-- The façade: `createSqlTranspiler({tableName, macros}).generateSql(
dialect, fields, query)` with the formatter registry left at its default,
the built-in bundles (the configuration every claim concerns).  The bound
table name, macro table and the expression store are passed explicitly;
each call is a pure function of them. -/
def generateSql (tableName : Option String) (macros : List (String × Nat))
    (store : Store) (dialect : String) (fields : List (Nat × String))
    (query : SqlQuery) : SqlResult :=
  match lookupFormatter builtInFormatters dialect with
  | none => SqlResult.err (SqlError.unknownDialect dialect)
  | some formatter =>
    match formatter.formatStatement formatter.formatColumn store macros fields
      { type := "SELECT", list := "*", fromTable := tableName,
        whereClause := query.whereClause, limit := query.limit } with
    | Except.ok sqlStr => SqlResult.ok (sqlStr ++ ";")
    | Except.error e => SqlResult.err e

/-- The ids a node links to directly during rendering: the children of
`and`/`or`/`not`, and for a macro reference the node its name resolves to.
These are exactly the node ids `defaultFormatOperator` recurses into. -/
def childIds (store : Store) (macros : List (String × Nat)) (id : Nat) : List Nat :=
  match lookupNode store id with
  | some (SqlNode.and a b) => [a, b]
  | some (SqlNode.or a b) => [a, b]
  | some (SqlNode.not a) => [a]
  | some (SqlNode.macroRef name) =>
    match lookupMacro macros name with
    | some bodyId => [bodyId]
    | none => []
  | _ => []

/-- Reachability along rendering links: `Reaches store macros a b` when a
chain of zero or more child/macro-resolution links leads from `a` to `b`.
A node is "its own ancestor" exactly when a nonempty such chain returns to
it. -/
def Reaches (store : Store) (macros : List (String × Nat)) : Nat → Nat → Prop :=
  Relation.ReflTransGen (fun x y => y ∈ childIds store macros x)

/-- Acyclicity of the expression/macro graph: no node lies on a nonempty
cycle of rendering links.  This is the spec's "macros may reference other
macros, forming a directed graph that must be acyclic along any resolution
path". -/
def AcyclicGraph (store : Store) (macros : List (String × Nat)) : Prop :=
  ∀ x, ¬ Relation.TransGen (fun a b => b ∈ childIds store macros a) x x

/-- Distinct macro names for the circular-chain family, one per node id. -/
def chainMacroName (j : Nat) : String := String.mk (List.replicate j 'a')

/-- One link of the circular-chain family: either direct nesting (a `not`
node whose child is node `j`) or a macro reference resolving to node `j`. -/
def chainNode (useMacro : Bool) (j : Nat) : SqlNode :=
  if useMacro then SqlNode.macroRef (chainMacroName j) else SqlNode.not j

/-- The circular-chain store of depth `n`: node `i` links to node `i - 1`
(by direct nesting or through the macro table, as `tags i` chooses), and
node `0` links to itself — a node that is its own ancestor at depth `n`. -/
def chainStore (tags : Nat → Bool) (n : Nat) : Store :=
  (List.range (n + 1)).map (fun i => (i, chainNode (tags i) (i - 1)))

/-- The macro table for the chain family: `chainMacroName j ↦ node j`. -/
def chainMacros (n : Nat) : List (String × Nat) :=
  (List.range (n + 1)).map (fun j => (chainMacroName j, j))

/-- The field map of the worked examples in the repository's tests. -/
def exampleFields : List (Nat × String) :=
  [(1, "id"), (2, "name"), (3, "date_joined"), (4, "age")]

/-- A two-level macro chain: the where-expression (node 0) references
macro `outer`, whose body (node 1) references macro `inner`, whose body
(node 2) is a field reference.  Acyclic. -/
def macroChainStore : Store :=
  [(0, SqlNode.macroRef "outer"),
   (1, SqlNode.macroRef "inner"),
   (2, SqlNode.field 1)]

/-- The macro table of the two-level chain. -/
def macroChainMacros : List (String × Nat) := [("outer", 1), ("inner", 2)]

/-- The object graph of the repository's `supports nested macros` test,
in two variants sharing all subtrees: node 0 is
`and(<(field 1, 5), ['macro', 'is_adult_joe'])` (the reference under the
`and`), and node 8 is `and(<(field 1, 5), <body>)` — the same expression
with the macro's body (node 3, itself an `and` of two macro references)
substituted inline at the reference position. -/
def nestedMacroStore : Store :=
  [(0, SqlNode.and 1 2),
   (1, SqlNode.lt (SqlValue.field 1) (SqlValue.num 5)),
   (2, SqlNode.macroRef "is_adult_joe"),
   (3, SqlNode.and 4 5),
   (4, SqlNode.macroRef "is_joe"),
   (5, SqlNode.macroRef "is_adult"),
   (6, SqlNode.eq (SqlValue.field 2) [SqlValue.str "joe"]),
   (7, SqlNode.gt (SqlValue.field 4) (SqlValue.num 18)),
   (8, SqlNode.and 1 3)]

/-- The (acyclic) macro table of the `supports nested macros` test. -/
def nestedMacroMacros : List (String × Nat) :=
  [("is_adult_joe", 3), ("is_joe", 6), ("is_adult", 7)]

/-- The object graph of the spec's worked example:
`and(!=(field 3, null), or(>(field 4, 25), =(field 2, "Jerry")))`. -/
def exampleStore : Store :=
  [(0, SqlNode.and 1 2),
   (1, SqlNode.ne (SqlValue.field 3) [SqlValue.null]),
   (2, SqlNode.or 3 4),
   (3, SqlNode.gt (SqlValue.field 4) (SqlValue.num 25)),
   (4, SqlNode.eq (SqlValue.field 2) [SqlValue.str "Jerry"])]

theorem lookupFormatter_postgres :
    lookupFormatter builtInFormatters "postgres" = some defaultFormatter := rfl

theorem lookupFormatter_mysql :
    lookupFormatter builtInFormatters "mysql" =
      some { defaultFormatter with formatColumn := backtickColumn } := rfl

theorem lookupFormatter_sqlserver :
    lookupFormatter builtInFormatters "sqlserver" =
      some { defaultFormatter with formatStatement := sqlserverFormatStatement } := rfl

theorem generateSql_formatter (tableName : Option String)
    (macros : List (String × Nat)) (store : Store) (dialect : String)
    (fields : List (Nat × String)) (query : SqlQuery) (f : SqlFormatter)
    (hf : lookupFormatter builtInFormatters dialect = some f) :
    generateSql tableName macros store dialect fields query =
      match f.formatStatement f.formatColumn store macros fields
        { type := "SELECT", list := "*", fromTable := tableName,
          whereClause := query.whereClause, limit := query.limit } with
      | Except.ok sqlStr => SqlResult.ok (sqlStr ++ ";")
      | Except.error e => SqlResult.err e := by
  unfold generateSql
  rw [hf]

theorem defaultFormatStatement_where (formatColumn : String → String)
    (store : Store) (macros : List (String × Nat)) (fields : List (Nat × String))
    (sql : SqlStatement) (wid : Nat) (hw : sql.whereClause = some wid) :
    defaultFormatStatement formatColumn store macros fields sql =
      (defaultFormatOperator store macros fields formatColumn wid []).map
        (fun w => String.intercalate " "
          ([sql.type, sql.list] ++ fromParts sql.fromTable ++ ["WHERE " ++ w] ++
            limitParts sql.limit)) := by
  unfold defaultFormatStatement
  rw [hw]
  cases hcase : defaultFormatOperator store macros fields formatColumn wid [] <;>
    (simp only [whereParts, hcase]; rfl)

theorem sqlserverFormatStatement_where (formatColumn : String → String)
    (store : Store) (macros : List (String × Nat)) (fields : List (Nat × String))
    (sql : SqlStatement) (wid : Nat) (hw : sql.whereClause = some wid) :
    sqlserverFormatStatement formatColumn store macros fields sql =
      (defaultFormatOperator store macros fields formatColumn wid []).map
        (fun w => String.intercalate " "
          ([sql.type] ++ topParts sql.limit ++ [sql.list] ++ fromParts sql.fromTable ++
            ["WHERE " ++ w])) := by
  unfold sqlserverFormatStatement
  rw [hw]
  cases hcase : defaultFormatOperator store macros fields formatColumn wid [] <;>
    (simp only [whereParts, hcase]; rfl)

/-- C5: every `generateSql` call returns a two-variant result: on success
it carries the rendered SQL text terminated by `;`, on failure it carries
an error description.  The `SqlResult` type itself (mirroring the source's
`Result`, whose success variant has `error?: undefined` and whose failure
variant has `data?: undefined`) makes the two data forms mutually
exclusive, so a failing call carries no text at all — in particular no
partially-rendered string. -/
theorem generateSql_result_shape (tableName : Option String)
    (macros : List (String × Nat)) (store : Store) (dialect : String)
    (fields : List (Nat × String)) (query : SqlQuery) :
    (∃ s, generateSql tableName macros store dialect fields query =
        SqlResult.ok (s ++ ";")) ∨
    (∃ e, generateSql tableName macros store dialect fields query =
        SqlResult.err e) := by
  cases hf : lookupFormatter builtInFormatters dialect with
  | none =>
    refine Or.inr ⟨SqlError.unknownDialect dialect, ?_⟩
    unfold generateSql
    rw [hf]
  | some f =>
    rw [generateSql_formatter tableName macros store dialect fields query f hf]
    cases f.formatStatement f.formatColumn store macros fields
      { type := "SELECT", list := "*", fromTable := tableName,
        whereClause := query.whereClause, limit := query.limit } with
    | ok s => exact Or.inl ⟨s, rfl⟩
    | error e => exact Or.inr ⟨e, rfl⟩

/-- C6: rendering a `not` node produces the rendered text of its single
child wrapped as `NOT (<child>)`, for every child expression. -/
theorem not_rendering (store : Store) (macros : List (String × Nat))
    (fields : List (Nat × String)) (formatColumn : String → String)
    (id a : Nat) (visited : List Nat) (s : String)
    (hvis : id ∉ visited)
    (hfind : lookupNode store id = some (SqlNode.not a))
    (hchild : defaultFormatOperator store macros fields formatColumn a
      (visited ++ [id]) = Except.ok s) :
    defaultFormatOperator store macros fields formatColumn id visited =
      Except.ok ("NOT (" ++ s ++ ")") := by
  rw [defaultFormatOperator_eq _ _ _ _ _ _ _ hvis hfind, formatNode, hchild]
  rfl

/-- Witness for C6: `not(>(field 4, 35))` renders as `NOT ("age" > 35)`,
the behavior the repository's `handles NOT` test pins down. -/
theorem not_rendering_witness :
    defaultFormatOperator
      [(0, SqlNode.not 1), (1, SqlNode.gt (SqlValue.field 4) (SqlValue.num 35))]
      [] [(4, "age")] doubleQuoteColumn 0 [] =
      Except.ok ("NOT (" ++ "\"age\" > 35" ++ ")") := by
  apply not_rendering _ _ _ _ _ 1 _ _ (by decide) (by decide)
  rw [defaultFormatOperator_eq _ _ _ _ _ _
    (SqlNode.gt (SqlValue.field 4) (SqlValue.num 35)) (by decide) (by decide)]
  rfl

/-- C10: a field map entry whose column name is the empty string is
treated as an unknown field: the falsy guard `if (!columnName)` raises
`Unknown field number` instead of emitting a quoted empty identifier. -/
theorem empty_column_name_unknown_field (formatColumn : String → String)
    (fields : List (Nat × String)) (key : Nat)
    (h : lookupField fields key = some "") :
    defaultFormatValue formatColumn fields (SqlValue.field key) =
      Except.error (SqlError.unknownField key) := by
  simp only [defaultFormatValue]
  rw [h]
  rfl

/-- Witness for C10: field 7 mapped to the empty string fails as unknown. -/
theorem empty_column_name_unknown_field_witness :
    defaultFormatValue doubleQuoteColumn [(7, "")] (SqlValue.field 7) =
      Except.error (SqlError.unknownField 7) :=
  empty_column_name_unknown_field doubleQuoteColumn [(7, "")] 7 rfl

/-- C7: the identical expression-subtree object in two sibling positions
under a common parent (`and(x, x)`, both children the same node id `c`)
succeeds and renders `x`'s text twice.  Both siblings are rendered against
the same ancestor-path snapshot `visited ++ [id]` (the parent extends the
path by value before mapping over its children), so the reuse is never
flagged as a circular dependency. -/
theorem sibling_reuse_renders_twice (store : Store)
    (macros : List (String × Nat)) (fields : List (Nat × String))
    (formatColumn : String → String) (id c : Nat) (visited : List Nat)
    (s : String)
    (hvis : id ∉ visited)
    (hfind : lookupNode store id = some (SqlNode.and c c))
    (hchild : defaultFormatOperator store macros fields formatColumn c
      (visited ++ [id]) = Except.ok s) :
    defaultFormatOperator store macros fields formatColumn id visited =
      Except.ok (wrapClause store c s ++ " AND " ++ wrapClause store c s) := by
  rw [defaultFormatOperator_eq _ _ _ _ _ _ _ hvis hfind, formatNode, hchild]
  rfl

/-- Witness for C7: the repository's own reuse test — `and(x, x)` with
`x = ['field', 1]` the same object twice — renders `"id" AND "id"`. -/
theorem sibling_reuse_renders_twice_witness :
    defaultFormatOperator [(0, SqlNode.and 1 1), (1, SqlNode.field 1)]
      [] [(1, "id")] doubleQuoteColumn 0 [] =
      Except.ok (wrapClause [(0, SqlNode.and 1 1), (1, SqlNode.field 1)] 1 "\"id\"" ++
        " AND " ++ wrapClause [(0, SqlNode.and 1 1), (1, SqlNode.field 1)] 1 "\"id\"") := by
  apply sibling_reuse_renders_twice _ _ _ _ _ 1 _ _ (by decide) (by decide)
  rw [defaultFormatOperator_eq _ _ _ _ _ _ (SqlNode.field 1) (by decide) (by decide)]
  rfl

theorem lookupFormatter_builtin {dialect : String} {f : SqlFormatter}
    (hf : lookupFormatter builtInFormatters dialect = some f) :
    f = { defaultFormatter with formatStatement := sqlserverFormatStatement } ∨
    f = defaultFormatter ∨
    f = { defaultFormatter with formatColumn := backtickColumn } := by
  unfold lookupFormatter builtInFormatters at hf
  simp only [List.find?_cons] at hf
  cases h1 : (("sqlserver" : String) == dialect) <;> rw [h1] at hf
  case true => simp at hf; exact Or.inl hf.symm
  case false =>
    cases h2 : (("postgres" : String) == dialect) <;> rw [h2] at hf
    case true => simp at hf; exact Or.inr (Or.inl hf.symm)
    case false =>
      cases h3 : (("mysql" : String) == dialect) <;> rw [h3] at hf
      case true => simp at hf; exact Or.inr (Or.inr hf.symm)
      case false => simp at hf

theorem defaultFormatStatement_limit_zero (formatColumn : String → String)
    (store : Store) (macros : List (String × Nat)) (fields : List (Nat × String))
    (t li : String) (fr : Option String) (wc : Option Nat) :
    defaultFormatStatement formatColumn store macros fields
      { type := t, list := li, fromTable := fr, whereClause := wc, limit := some 0 } =
    defaultFormatStatement formatColumn store macros fields
      { type := t, list := li, fromTable := fr, whereClause := wc, limit := none } := rfl

theorem sqlserverFormatStatement_limit_zero (formatColumn : String → String)
    (store : Store) (macros : List (String × Nat)) (fields : List (Nat × String))
    (t li : String) (fr : Option String) (wc : Option Nat) :
    sqlserverFormatStatement formatColumn store macros fields
      { type := t, list := li, fromTable := fr, whereClause := wc, limit := some 0 } =
    sqlserverFormatStatement formatColumn store macros fields
      { type := t, list := li, fromTable := fr, whereClause := wc, limit := none } := rfl

/-- C9: a query whose limit is the integer 0 renders, under every dialect
of the built-in registry, exactly the statement text of a query with no
limit at all: the truthiness guards `if (sql.limit)` in both the default
and the sqlserver (TOP-style) statement renderers drop a zero limit, so no
`LIMIT` or `TOP` clause is emitted. -/
theorem limit_zero_omits_clause (tableName : Option String)
    (macros : List (String × Nat)) (store : Store) (dialect : String)
    (fields : List (Nat × String)) (whereClause : Option Nat) :
    generateSql tableName macros store dialect fields
      { limit := some 0, whereClause := whereClause } =
    generateSql tableName macros store dialect fields
      { limit := none, whereClause := whereClause } := by
  cases hf : lookupFormatter builtInFormatters dialect with
  | none => unfold generateSql; rw [hf]
  | some f =>
    rw [generateSql_formatter _ _ _ _ _ _ f hf, generateSql_formatter _ _ _ _ _ _ f hf]
    rcases lookupFormatter_builtin hf with h | h | h <;> subst h <;> rfl

theorem formatValueList_map (fv : SqlValue → Except SqlError String)
    (g : SqlValue → String) :
    ∀ l : List SqlValue, (∀ v ∈ l, fv v = Except.ok (g v)) →
    formatValueList fv l = Except.ok (l.map g) := by
  intro l
  induction l with
  | nil => intro _; rfl
  | cons v vs ih =>
    intro h
    have hv := h v (List.mem_cons_self v vs)
    have hvs := ih (fun x hx => h x (List.mem_cons_of_mem v hx))
    simp only [formatValueList, hv, hvs]
    rfl

/-- C1: an `=` or `!=` node rendered by the default operator renderer
(`neg` selects `!=`): with exactly one comparison value that is null it
renders the `IS`/`IS NOT` form followed by `NULL`; with exactly one
non-null comparison value it renders `=`/`<>`; with more than one
comparison value it renders `IN (...)`/`NOT IN (...)` over the
comma-joined rendered values, in the operands' input order (the output
lists `rest.map g`, the renderings in the order of `rest`). -/
theorem eq_ne_rendering (store : Store) (macros : List (String × Nat))
    (fields : List (Nat × String)) (formatColumn : String → String)
    (id : Nat) (visited : List Nat) (neg : Bool) (a : SqlValue)
    (rest : List SqlValue) (sa : String)
    (hvis : id ∉ visited)
    (hfind : lookupNode store id =
      some (if neg then SqlNode.ne a rest else SqlNode.eq a rest))
    (ha : defaultFormatValue formatColumn fields a = Except.ok sa) :
    (rest = [SqlValue.null] →
      defaultFormatOperator store macros fields formatColumn id visited =
        Except.ok (sa ++ " " ++ (if neg then "IS NOT" else "IS") ++ " " ++ "NULL")) ∧
    (∀ b sb, rest = [b] → b ≠ SqlValue.null →
      defaultFormatValue formatColumn fields b = Except.ok sb →
      defaultFormatOperator store macros fields formatColumn id visited =
        Except.ok (sa ++ " " ++ (if neg then "<>" else "=") ++ " " ++ sb)) ∧
    (∀ g : SqlValue → String, 1 < rest.length →
      (∀ v ∈ rest, defaultFormatValue formatColumn fields v = Except.ok (g v)) →
      defaultFormatOperator store macros fields formatColumn id visited =
        Except.ok (sa ++ " " ++ (if neg then "NOT IN" else "IN") ++ " (" ++
          String.intercalate ", " (rest.map g) ++ ")")) := by
  cases neg with
  | false =>
    rw [show (if false then SqlNode.ne a rest else SqlNode.eq a rest) =
      SqlNode.eq a rest from rfl] at hfind
    rw [defaultFormatOperator_eq _ _ _ _ _ _ _ hvis hfind]
    simp only [formatNode]
    refine ⟨?_, ?_, ?_⟩
    · intro h
      subst h
      simp only [formatComparison, ha]
      rfl
    · intro b sb hb hbne hfb
      subst hb
      cases b with
      | null => exact absurd rfl hbne
      | field k => simp only [formatComparison, ha, hfb]; rfl
      | num n => simp only [formatComparison, ha, hfb]; rfl
      | str s => simp only [formatComparison, ha, hfb]; rfl
    · intro g hlen hall
      have hl := formatValueList_map _ g rest hall
      match rest, hlen with
      | b :: c :: rest', _ =>
        simp only [formatComparison, ha, hl]
        rfl
  | true =>
    rw [show (if true then SqlNode.ne a rest else SqlNode.eq a rest) =
      SqlNode.ne a rest from rfl] at hfind
    rw [defaultFormatOperator_eq _ _ _ _ _ _ _ hvis hfind]
    simp only [formatNode]
    refine ⟨?_, ?_, ?_⟩
    · intro h
      subst h
      simp only [formatComparison, ha]
      rfl
    · intro b sb hb hbne hfb
      subst hb
      cases b with
      | null => exact absurd rfl hbne
      | field k => simp only [formatComparison, ha, hfb]; rfl
      | num n => simp only [formatComparison, ha, hfb]; rfl
      | str s => simp only [formatComparison, ha, hfb]; rfl
    · intro g hlen hall
      have hl := formatValueList_map _ g rest hall
      match rest, hlen with
      | b :: c :: rest', _ =>
        simp only [formatComparison, ha, hl]
        rfl

/-- Witness for C1: concrete renderings of the four forms, matching the
repository's tests — `=(field 3, null)` gives `"date_joined" IS NULL`,
`!=(field 3, null)` gives `"date_joined" IS NOT NULL`, `=(field 2, 'cam')`
gives `"name" = 'cam'`, and `=(field 4, 25, 26, 27)` gives
`"age" IN (25, 26, 27)`. -/
theorem eq_ne_rendering_witness :
    defaultFormatOperator [(0, SqlNode.eq (SqlValue.field 3) [SqlValue.null])]
      [] exampleFields doubleQuoteColumn 0 [] =
      Except.ok "\"date_joined\" IS NULL" ∧
    defaultFormatOperator [(0, SqlNode.ne (SqlValue.field 3) [SqlValue.null])]
      [] exampleFields doubleQuoteColumn 0 [] =
      Except.ok "\"date_joined\" IS NOT NULL" ∧
    defaultFormatOperator [(0, SqlNode.eq (SqlValue.field 2) [SqlValue.str "cam"])]
      [] exampleFields doubleQuoteColumn 0 [] =
      Except.ok "\"name\" = 'cam'" ∧
    defaultFormatOperator
      [(0, SqlNode.eq (SqlValue.field 4)
        [SqlValue.num 25, SqlValue.num 26, SqlValue.num 27])]
      [] exampleFields doubleQuoteColumn 0 [] =
      Except.ok "\"age\" IN (25, 26, 27)" := by
  refine ⟨?_, ?_, ?_, ?_⟩
  · exact (eq_ne_rendering _ [] exampleFields doubleQuoteColumn 0 [] false
      (SqlValue.field 3) [SqlValue.null] "\"date_joined\"" (by decide) (by decide) rfl).1 rfl
  · exact (eq_ne_rendering _ [] exampleFields doubleQuoteColumn 0 [] true
      (SqlValue.field 3) [SqlValue.null] "\"date_joined\"" (by decide) (by decide) rfl).1 rfl
  · exact (eq_ne_rendering _ [] exampleFields doubleQuoteColumn 0 [] false
      (SqlValue.field 2) [SqlValue.str "cam"] "\"name\"" (by decide) (by decide) rfl).2.1
      (SqlValue.str "cam") "'cam'" rfl (by decide) rfl
  · exact (eq_ne_rendering _ [] exampleFields doubleQuoteColumn 0 [] false
      (SqlValue.field 4) [SqlValue.num 25, SqlValue.num 26, SqlValue.num 27] "\"age\""
      (by decide) (by decide) rfl).2.2
      (fun v => match v with | SqlValue.num n => toString n | _ => "")
      (by decide)
      (by intro v hv; simp only [List.mem_cons, List.not_mem_nil, or_false] at hv
          rcases hv with rfl | rfl | rfl <;> rfl)

/-- C4: when the default operator renderer renders an `and` or `or` node
(`isOr` selects `or`), each child is rendered and then parenthesised
exactly when `needsWrapped` holds of it, before the two parts are joined
with `" AND "`/`" OR "`; and `needsWrapped` holds of a child exactly when
the child's own top-level tag is `and` or `or` — a child with any other
tag (including `not` and the comparison operators) is never
parenthesised. -/
theorem and_or_parenthesization (store : Store) (macros : List (String × Nat))
    (fields : List (Nat × String)) (formatColumn : String → String)
    (id : Nat) (visited : List Nat) (isOr : Bool) (a b : Nat) (sa sb : String)
    (hvis : id ∉ visited)
    (hfind : lookupNode store id =
      some (if isOr then SqlNode.or a b else SqlNode.and a b))
    (ha : defaultFormatOperator store macros fields formatColumn a
      (visited ++ [id]) = Except.ok sa)
    (hb : defaultFormatOperator store macros fields formatColumn b
      (visited ++ [id]) = Except.ok sb) :
    defaultFormatOperator store macros fields formatColumn id visited =
      Except.ok ((if needsWrapped store a then "(" ++ sa ++ ")" else sa) ++
        (if isOr then " OR " else " AND ") ++
        (if needsWrapped store b then "(" ++ sb ++ ")" else sb)) ∧
    (∀ c x y, lookupNode store c = some (SqlNode.and x y) →
      needsWrapped store c = true) ∧
    (∀ c x y, lookupNode store c = some (SqlNode.or x y) →
      needsWrapped store c = true) ∧
    (∀ c n, lookupNode store c = some n →
      (∀ x y, n ≠ SqlNode.and x y) → (∀ x y, n ≠ SqlNode.or x y) →
      needsWrapped store c = false) := by
  refine ⟨?_, ?_, ?_, ?_⟩
  · cases isOr with
    | false =>
      rw [show (if false then SqlNode.or a b else SqlNode.and a b) =
        SqlNode.and a b from rfl] at hfind
      rw [defaultFormatOperator_eq _ _ _ _ _ _ _ hvis hfind]
      simp only [formatNode]
      rw [ha, hb]
      rfl
    | true =>
      rw [show (if true then SqlNode.or a b else SqlNode.and a b) =
        SqlNode.or a b from rfl] at hfind
      rw [defaultFormatOperator_eq _ _ _ _ _ _ _ hvis hfind]
      simp only [formatNode]
      rw [ha, hb]
      rfl
  · intro c x y h
    unfold needsWrapped
    rw [h]
  · intro c x y h
    unfold needsWrapped
    rw [h]
  · intro c n h hna hno
    unfold needsWrapped
    rw [h]
    cases n with
    | and x y => exact absurd rfl (hna x y)
    | or x y => exact absurd rfl (hno x y)
    | field k => rfl
    | not x => rfl
    | lt x y => rfl
    | gt x y => rfl
    | eq x r => rfl
    | ne x r => rfl
    | isEmpty x => rfl
    | notEmpty x => rfl
    | macroRef nm => rfl

/-- Witness for C4: the spec's worked example — the `or` child of the
`and` root is parenthesised, its comparison sibling is not, and the two
comparison children of the `or` are not. -/
theorem and_or_parenthesization_witness :
    defaultFormatOperator exampleStore [] exampleFields doubleQuoteColumn 0 [] =
      Except.ok "\"date_joined\" IS NOT NULL AND (\"age\" > 25 OR \"name\" = 'Jerry')" := by
  have h3 : defaultFormatOperator exampleStore [] exampleFields doubleQuoteColumn 3
      (([] ++ [0]) ++ [2]) = Except.ok "\"age\" > 25" := by
    rw [defaultFormatOperator_eq _ _ _ _ _ _
      (SqlNode.gt (SqlValue.field 4) (SqlValue.num 25)) (by decide) (by decide)]
    rfl
  have h4 : defaultFormatOperator exampleStore [] exampleFields doubleQuoteColumn 4
      (([] ++ [0]) ++ [2]) = Except.ok "\"name\" = 'Jerry'" := by
    rw [defaultFormatOperator_eq _ _ _ _ _ _
      (SqlNode.eq (SqlValue.field 2) [SqlValue.str "Jerry"]) (by decide) (by decide)]
    rfl
  have h1 : defaultFormatOperator exampleStore [] exampleFields doubleQuoteColumn 1
      ([] ++ [0]) = Except.ok "\"date_joined\" IS NOT NULL" := by
    rw [defaultFormatOperator_eq _ _ _ _ _ _
      (SqlNode.ne (SqlValue.field 3) [SqlValue.null]) (by decide) (by decide)]
    rfl
  have h2 : defaultFormatOperator exampleStore [] exampleFields doubleQuoteColumn 2
      ([] ++ [0]) = Except.ok "\"age\" > 25 OR \"name\" = 'Jerry'" :=
    (and_or_parenthesization exampleStore [] exampleFields doubleQuoteColumn 2
      ([] ++ [0]) true 3 4 "\"age\" > 25" "\"name\" = 'Jerry'"
      (by decide) (by decide) h3 h4).1
  exact (and_or_parenthesization exampleStore [] exampleFields doubleQuoteColumn 0
    [] false 1 2 "\"date_joined\" IS NOT NULL" "\"age\" > 25 OR \"name\" = 'Jerry'"
    (by decide) (by decide) h1 h2).1

theorem formatOperator_unknown_field (store : Store) (macros : List (String × Nat))
    (fields : List (Nat × String)) (formatColumn : String → String)
    (id key : Nat) (visited : List Nat)
    (hvis : id ∉ visited)
    (hfind : lookupNode store id = some (SqlNode.field key))
    (hkey : lookupField fields key = none) :
    defaultFormatOperator store macros fields formatColumn id visited =
      Except.error (SqlError.unknownField key) := by
  rw [defaultFormatOperator_eq _ _ _ _ _ _ _ hvis hfind]
  simp only [formatNode, defaultFormatValue]
  rw [hkey]

theorem formatOperator_macro_not_found (store : Store) (macros : List (String × Nat))
    (fields : List (Nat × String)) (formatColumn : String → String)
    (id : Nat) (name : String) (visited : List Nat)
    (hvis : id ∉ visited)
    (hfind : lookupNode store id = some (SqlNode.macroRef name))
    (hname : lookupMacro macros name = none) :
    defaultFormatOperator store macros fields formatColumn id visited =
      Except.error (SqlError.macroNotFound name) := by
  rw [defaultFormatOperator_eq _ _ _ _ _ _ _ hvis hfind]
  simp only [formatNode]
  rw [hname]

/-- C8: rendering a field reference whose number is absent from the
supplied field map fails with the `UnknownField` error, and rendering a
macro reference whose name is absent from the macro table fails with the
`MacroNotFound` error; at the façade, a compile whose where-expression is
such a node yields the corresponding failure result, which by the shape of
`SqlResult` carries no output text. -/
theorem unknown_reference_errors (store : Store) (macros : List (String × Nat))
    (fields : List (Nat × String)) (formatColumn : String → String)
    (idF idM key : Nat) (name : String) (visited : List Nat)
    (tableName : Option String) (limit : Option Nat)
    (hF : lookupNode store idF = some (SqlNode.field key))
    (hFf : lookupField fields key = none)
    (hM : lookupNode store idM = some (SqlNode.macroRef name))
    (hMm : lookupMacro macros name = none)
    (hvF : idF ∉ visited) (hvM : idM ∉ visited) :
    defaultFormatOperator store macros fields formatColumn idF visited =
      Except.error (SqlError.unknownField key) ∧
    defaultFormatOperator store macros fields formatColumn idM visited =
      Except.error (SqlError.macroNotFound name) ∧
    generateSql tableName macros store "postgres" fields
      { limit := limit, whereClause := some idF } =
      SqlResult.err (SqlError.unknownField key) ∧
    generateSql tableName macros store "postgres" fields
      { limit := limit, whereClause := some idM } =
      SqlResult.err (SqlError.macroNotFound name) := by
  refine ⟨formatOperator_unknown_field _ _ _ _ _ _ _ hvF hF hFf,
    formatOperator_macro_not_found _ _ _ _ _ _ _ hvM hM hMm, ?_, ?_⟩
  · rw [generateSql_formatter _ _ _ _ _ _ _ lookupFormatter_postgres]
    rw [show defaultFormatter.formatStatement = defaultFormatStatement from rfl,
        show defaultFormatter.formatColumn = doubleQuoteColumn from rfl]
    rw [defaultFormatStatement_where _ _ _ _ _ idF rfl]
    rw [formatOperator_unknown_field store macros fields doubleQuoteColumn idF key []
      (List.not_mem_nil idF) hF hFf]
    rfl
  · rw [generateSql_formatter _ _ _ _ _ _ _ lookupFormatter_postgres]
    rw [show defaultFormatter.formatStatement = defaultFormatStatement from rfl,
        show defaultFormatter.formatColumn = doubleQuoteColumn from rfl]
    rw [defaultFormatStatement_where _ _ _ _ _ idM rfl]
    rw [formatOperator_macro_not_found store macros fields doubleQuoteColumn idM name []
      (List.not_mem_nil idM) hM hMm]
    rfl

/-- Witness for C8: field number 999 is not in the example field map and
macro `is_adult_joe` is not in an empty macro table; both compiles fail
with the respective error, as in the repository's tests. -/
theorem unknown_reference_errors_witness :
    generateSql (some "data") [] [(0, SqlNode.field 999), (1, SqlNode.macroRef "is_adult_joe")]
      "postgres" exampleFields { limit := none, whereClause := some 0 } =
      SqlResult.err (SqlError.unknownField 999) ∧
    generateSql (some "data") [] [(0, SqlNode.field 999), (1, SqlNode.macroRef "is_adult_joe")]
      "postgres" exampleFields { limit := none, whereClause := some 1 } =
      SqlResult.err (SqlError.macroNotFound "is_adult_joe") := by
  have h := unknown_reference_errors
    [(0, SqlNode.field 999), (1, SqlNode.macroRef "is_adult_joe")] []
    exampleFields doubleQuoteColumn 0 1 999 "is_adult_joe" [] (some "data") none
    (by decide) (by decide) (by decide) (by decide) (by decide) (by decide)
  exact ⟨h.2.2.1, h.2.2.2⟩

theorem find?_range_pairs_nat {α : Type} (g : Nat → α) (n i : Nat) (hi : i < n) :
    ((List.range n).map (fun j => (j, g j))).find? (fun p => p.1 == i) =
      some (i, g i) := by
  induction n with
  | zero => omega
  | succ m ih =>
    rw [List.range_succ, List.map_append, List.find?_append]
    by_cases him : i < m
    · rw [ih him]
      rfl
    · have hieq : i = m := by omega
      subst hieq
      have hnone : ((List.range i).map (fun j => (j, g j))).find?
          (fun p => p.1 == i) = none := by
        rw [List.find?_eq_none]
        intro x hx
        rcases List.mem_map.mp hx with ⟨j, hj, rfl⟩
        have hji : j < i := List.mem_range.mp hj
        simp only [beq_iff_eq]
        omega
      rw [hnone]
      simp [List.find?_cons]

theorem find?_range_pairs_str {α : Type} (key : Nat → String) (g : Nat → α)
    (hinj : ∀ x y, key x = key y → x = y) (n i : Nat) (hi : i < n) :
    ((List.range n).map (fun j => (key j, g j))).find? (fun p => p.1 == key i) =
      some (key i, g i) := by
  induction n with
  | zero => omega
  | succ m ih =>
    rw [List.range_succ, List.map_append, List.find?_append]
    by_cases him : i < m
    · rw [ih him]
      rfl
    · have hieq : i = m := by omega
      subst hieq
      have hnone : ((List.range i).map (fun j => (key j, g j))).find?
          (fun p => p.1 == key i) = none := by
        rw [List.find?_eq_none]
        intro x hx
        rcases List.mem_map.mp hx with ⟨j, hj, rfl⟩
        have hji : j < i := List.mem_range.mp hj
        simp only [beq_iff_eq]
        intro hk
        exact absurd (hinj j i hk) (by omega)
      rw [hnone]
      simp [List.find?_cons]

theorem chainMacroName_inj (x y : Nat) (h : chainMacroName x = chainMacroName y) :
    x = y := by
  have hx : (chainMacroName x).length = x := by
    simp [chainMacroName, String.length]
  have hy : (chainMacroName y).length = y := by
    simp [chainMacroName, String.length]
  rw [← hx, ← hy, h]

theorem lookupNode_chainStore (tags : Nat → Bool) (n i : Nat) (hi : i ≤ n) :
    lookupNode (chainStore tags n) i = some (chainNode (tags i) (i - 1)) := by
  unfold lookupNode chainStore
  rw [find?_range_pairs_nat (fun j => chainNode (tags j) (j - 1)) (n + 1) i (by omega)]
  rfl

theorem lookupMacro_chainMacros (n j : Nat) (hj : j ≤ n) :
    lookupMacro (chainMacros n) (chainMacroName j) = some j := by
  unfold lookupMacro chainMacros
  rw [find?_range_pairs_str chainMacroName (fun j => j) chainMacroName_inj
    (n + 1) j (by omega)]
  rfl

theorem chain_fog_fails (tags : Nat → Bool) (n : Nat)
    (fields : List (Nat × String)) (formatColumn : String → String) :
    ∀ i, i ≤ n → ∀ visited : List Nat, (∀ j ∈ visited, i < j) →
    defaultFormatOperator (chainStore tags n) (chainMacros n) fields formatColumn
      i visited = Except.error SqlError.circularDependency := by
  intro i
  induction i with
  | zero =>
    intro h0 visited hvis
    have hmem : (0 : Nat) ∉ visited := fun hin => absurd (hvis 0 hin) (by omega)
    have hfind := lookupNode_chainStore tags n 0 h0
    rw [defaultFormatOperator_eq _ _ _ _ _ _ _ hmem hfind]
    have hin0 : (0 : Nat) ∈ visited ++ [0] := by simp
    cases htag : tags 0 with
    | false =>
      rw [show chainNode false (0 - 1) = SqlNode.not 0 from rfl]
      simp only [formatNode]
      rw [defaultFormatOperator_circ _ _ _ _ _ _ hin0]
      rfl
    | true =>
      rw [show chainNode true (0 - 1) = SqlNode.macroRef (chainMacroName 0) from rfl]
      simp only [formatNode]
      rw [lookupMacro_chainMacros n 0 h0]
      exact defaultFormatOperator_circ _ _ _ _ _ _ hin0
  | succ i ih =>
    intro hsucc visited hvis
    have hmem : (i + 1) ∉ visited := fun hin => absurd (hvis _ hin) (lt_irrefl _)
    have hfind := lookupNode_chainStore tags n (i + 1) hsucc
    rw [defaultFormatOperator_eq _ _ _ _ _ _ _ hmem hfind]
    have hchild : defaultFormatOperator (chainStore tags n) (chainMacros n) fields
        formatColumn i (visited ++ [i + 1]) = Except.error SqlError.circularDependency := by
      apply ih (by omega)
      intro j hj
      rcases List.mem_append.mp hj with h | h
      · exact Nat.lt_of_succ_lt (hvis j h)
      · have : j = i + 1 := List.mem_singleton.mp h
        omega
    cases htag : tags (i + 1) with
    | false =>
      rw [show chainNode false (i + 1 - 1) = SqlNode.not i from rfl]
      simp only [formatNode]
      rw [hchild]
      rfl
    | true =>
      rw [show chainNode true (i + 1 - 1) = SqlNode.macroRef (chainMacroName i) from rfl]
      simp only [formatNode]
      rw [lookupMacro_chainMacros n i (by omega)]
      exact hchild

/-- C2 (amended): a where-expression that reaches, along its ancestor
path, a node that is its own ancestor fails with `CircularDependency` at
any depth.  Concretely, for every depth `n` and every per-level choice
`tags` between direct self-nesting (a `not` node) and a macro-table
expansion (a macro reference), compiling the chain whose last node links
back to itself fails with `CircularDependency` — the renderer-level
failure and the façade-level failure result.  (The original claim's
universal form — *every* input containing a self-ancestor node fails so —
is refuted by `circular_unreached_counterexample`: a cycle the traversal
never reaches does not fail.) -/
theorem circular_chain_fails (tags : Nat → Bool) (n : Nat)
    (tableName : Option String) (limit : Option Nat)
    (fields : List (Nat × String)) (formatColumn : String → String) :
    defaultFormatOperator (chainStore tags n) (chainMacros n) fields formatColumn
      n [] = Except.error SqlError.circularDependency ∧
    generateSql tableName (chainMacros n) (chainStore tags n) "postgres" fields
      { limit := limit, whereClause := some n } =
      SqlResult.err SqlError.circularDependency := by
  constructor
  · exact chain_fog_fails tags n fields formatColumn n le_rfl [] (by simp)
  · rw [generateSql_formatter _ _ _ _ _ _ _ lookupFormatter_postgres]
    rw [show defaultFormatter.formatStatement = defaultFormatStatement from rfl,
        show defaultFormatter.formatColumn = doubleQuoteColumn from rfl]
    rw [defaultFormatStatement_where _ _ _ _ _ n rfl]
    rw [chain_fog_fails tags n fields doubleQuoteColumn n le_rfl [] (by simp)]
    rfl

/-- Counterexample to C2 as stated: this input's macro table contains a
node that is its own ancestor through a macro expansion (macro `a`
resolves to node 0, which is the reference `['macro', 'a']` itself), yet
compiling the input succeeds, because the where-expression (node 1, a bare
field reference) never reaches the cycle. -/
theorem circular_unreached_counterexample :
    lookupMacro [("a", 0)] "a" = some 0 ∧
    lookupNode [(0, SqlNode.macroRef "a"), (1, SqlNode.field 1)] 0 =
      some (SqlNode.macroRef "a") ∧
    generateSql (some "data") [("a", 0)]
      [(0, SqlNode.macroRef "a"), (1, SqlNode.field 1)]
      "postgres" [(1, "id")] { limit := none, whereClause := some 1 } =
      SqlResult.ok "SELECT * FROM data WHERE \"id\";" := by
  refine ⟨rfl, rfl, ?_⟩
  have h1 : defaultFormatOperator [(0, SqlNode.macroRef "a"), (1, SqlNode.field 1)]
      [("a", 0)] [(1, "id")] doubleQuoteColumn 1 [] = Except.ok "\"id\"" := by
    rw [defaultFormatOperator_eq _ _ _ _ _ _ (SqlNode.field 1) (by decide) (by decide)]
    rfl
  rw [generateSql_formatter _ _ _ _ _ _ _ lookupFormatter_postgres]
  rw [show defaultFormatter.formatStatement = defaultFormatStatement from rfl,
      show defaultFormatter.formatColumn = doubleQuoteColumn from rfl]
  rw [defaultFormatStatement_where _ _ _ _ _ 1 rfl, h1]
  rfl

theorem childIds_mem_store {store : Store} {macros : List (String × Nat)}
    {x y : Nat} (hy : y ∈ childIds store macros x) : x ∈ storeIds store := by
  unfold childIds at hy
  cases hfind : lookupNode store x with
  | none =>
    rw [hfind] at hy
    exact absurd hy (List.not_mem_nil y)
  | some node => exact lookupNode_mem_storeIds hfind

theorem transgen_rank_lt {store : Store} {macros : List (String × Nat)}
    (rk : Nat → Nat) (hrk : ∀ x y, y ∈ childIds store macros x → rk y < rk x)
    {a b : Nat}
    (h : Relation.TransGen (fun x y => y ∈ childIds store macros x) a b) :
    rk b < rk a := by
  induction h with
  | single h1 => exact hrk _ _ h1
  | tail h1 h2 ih => exact lt_trans (hrk _ _ h2) ih

theorem acyclic_of_rank (store : Store) (macros : List (String × Nat))
    (rk : Nat → Nat) (hrk : ∀ x y, y ∈ childIds store macros x → rk y < rk x) :
    AcyclicGraph store macros := by
  intro x hx
  exact absurd (transgen_rank_lt rk hrk hx) (lt_irrefl _)

theorem formatOperator_congr (store : Store) (macros : List (String × Nat))
    (fields : List (Nat × String)) (formatColumn : String → String) :
    ∀ (fuel : Nat) (id : Nat) (v1 v2 : List Nat),
      ((storeIds store).toFinset \ v1.toFinset).card ≤ fuel →
      (∀ y, Reaches store macros id y → (y ∈ v1 ↔ y ∈ v2)) →
      defaultFormatOperator store macros fields formatColumn id v1 =
      defaultFormatOperator store macros fields formatColumn id v2 := by
  intro fuel
  induction fuel with
  | zero =>
    intro id v1 v2 hcard hiff
    have hidiff := hiff id Relation.ReflTransGen.refl
    by_cases h1 : id ∈ v1
    · rw [defaultFormatOperator_circ _ _ _ _ _ _ h1,
          defaultFormatOperator_circ _ _ _ _ _ _ (hidiff.mp h1)]
    · cases hfind : lookupNode store id with
      | none =>
        rw [defaultFormatOperator_dangling _ _ _ _ _ _ h1 hfind,
            defaultFormatOperator_dangling _ _ _ _ _ _
              (fun h => h1 (hidiff.mpr h)) hfind]
      | some node =>
        exfalso
        have hmemid : id ∈ storeIds store := lookupNode_mem_storeIds hfind
        have hin : id ∈ (storeIds store).toFinset \ v1.toFinset := by
          simp [hmemid, h1]
        have := Finset.card_pos.mpr ⟨id, hin⟩
        omega
  | succ m ih =>
    intro id v1 v2 hcard hiff
    have hidiff := hiff id Relation.ReflTransGen.refl
    by_cases h1 : id ∈ v1
    · rw [defaultFormatOperator_circ _ _ _ _ _ _ h1,
          defaultFormatOperator_circ _ _ _ _ _ _ (hidiff.mp h1)]
    · have h2 : id ∉ v2 := fun h => h1 (hidiff.mpr h)
      cases hfind : lookupNode store id with
      | none =>
        rw [defaultFormatOperator_dangling _ _ _ _ _ _ h1 hfind,
            defaultFormatOperator_dangling _ _ _ _ _ _ h2 hfind]
      | some node =>
        rw [defaultFormatOperator_eq _ _ _ _ _ _ _ h1 hfind,
            defaultFormatOperator_eq _ _ _ _ _ _ _ h2 hfind]
        have hmemid : id ∈ storeIds store := lookupNode_mem_storeIds hfind
        have hlt : ((storeIds store).toFinset \ (v1 ++ [id]).toFinset).card ≤ m := by
          have := visited_measure_lt h1 hmemid
          omega
        have hrec : ∀ k, k ∈ childIds store macros id →
            defaultFormatOperator store macros fields formatColumn k (v1 ++ [id]) =
            defaultFormatOperator store macros fields formatColumn k (v2 ++ [id]) := by
          intro k hk
          apply ih k (v1 ++ [id]) (v2 ++ [id]) hlt
          intro y hy
          have hry : Reaches store macros id y := Relation.ReflTransGen.head hk hy
          have := hiff y hry
          simp only [List.mem_append, List.mem_singleton]
          tauto
        cases node with
        | and a b =>
          have hc : childIds store macros id = [a, b] := by
            unfold childIds
            rw [hfind]
          simp only [formatNode]
          rw [hrec a (by rw [hc]; simp), hrec b (by rw [hc]; simp)]
        | or a b =>
          have hc : childIds store macros id = [a, b] := by
            unfold childIds
            rw [hfind]
          simp only [formatNode]
          rw [hrec a (by rw [hc]; simp), hrec b (by rw [hc]; simp)]
        | not a =>
          have hc : childIds store macros id = [a] := by
            unfold childIds
            rw [hfind]
          simp only [formatNode]
          rw [hrec a (by rw [hc]; simp)]
        | macroRef name =>
          simp only [formatNode]
          cases hmac : lookupMacro macros name with
          | none => rfl
          | some bodyId =>
            have hc : childIds store macros id = [bodyId] := by
              have hstep : childIds store macros id =
                  match lookupMacro macros name with
                  | some b => [b]
                  | none => [] := by
                unfold childIds
                rw [hfind]
              rw [hstep, hmac]
            exact hrec bodyId (by rw [hc]; simp)
        | field k => rfl
        | lt a b => rfl
        | gt a b => rfl
        | eq a rest => rfl
        | ne a rest => rfl
        | isEmpty a => rfl
        | notEmpty a => rfl

/-- C3 (amended): over an acyclic macro/expression graph, a macro
reference renders exactly as its body rendered at the same position (the
same ancestor path), and a compile whose where-expression is the
reference yields, under every dialect, exactly the text of a compile of
the body — the reference's only trace, its extension of the ancestor
path, is invisible because acyclicity keeps the body's subgraph from
revisiting it.  Nested references two or more levels deep inline by
iterating the equality (each level is again a macro reference in an
acyclic graph, as the witness shows on a two-level chain).  The original
claim's stronger form — substituting the body inline into an arbitrary
*containing* expression never changes the compiled text — is false: the
parenthesization guard wraps a child by its own top-level tag, so a
reference (tag `macro`) directly under an `and`/`or` is never wrapped
while its inlined `and`/`or` body is; the counterexample below exhibits
the repository's own nested-macros test diverging from its inlined
variant. -/
theorem macro_inlining (store : Store) (macros : List (String × Nat))
    (fields : List (Nat × String)) (formatColumn : String → String)
    (refId bodyId : Nat) (name : String) (visited : List Nat)
    (tableName : Option String) (limit : Option Nat)
    (href : lookupNode store refId = some (SqlNode.macroRef name))
    (hname : lookupMacro macros name = some bodyId)
    (hacyc : AcyclicGraph store macros)
    (hvis : refId ∉ visited) :
    defaultFormatOperator store macros fields formatColumn refId visited =
      defaultFormatOperator store macros fields formatColumn bodyId visited ∧
    ∀ dialect, generateSql tableName macros store dialect fields
        { limit := limit, whereClause := some refId } =
      generateSql tableName macros store dialect fields
        { limit := limit, whereClause := some bodyId } := by
  have hedge : bodyId ∈ childIds store macros refId := by
    have hstep : childIds store macros refId =
        match lookupMacro macros name with
        | some b => [b]
        | none => [] := by
      unfold childIds
      rw [href]
    rw [hstep, hname]
    simp
  have hgen : ∀ (col' : String → String) (v : List Nat), refId ∉ v →
      defaultFormatOperator store macros fields col' refId v =
      defaultFormatOperator store macros fields col' bodyId v := by
    intro col' v hv
    rw [defaultFormatOperator_eq _ _ _ _ _ _ _ hv href]
    simp only [formatNode]
    rw [hname]
    apply formatOperator_congr store macros fields col'
      (((storeIds store).toFinset \ (v ++ [refId]).toFinset).card) bodyId
      (v ++ [refId]) v le_rfl
    intro y hy
    simp only [List.mem_append, List.mem_singleton]
    constructor
    · rintro (h | h)
      · exact h
      · exact absurd (Relation.TransGen.head' hedge (h ▸ hy)) (hacyc refId)
    · intro h
      exact Or.inl h
  refine ⟨hgen formatColumn visited hvis, ?_⟩
  intro dialect
  cases hf : lookupFormatter builtInFormatters dialect with
  | none =>
    unfold generateSql
    rw [hf]
  | some f =>
    rw [generateSql_formatter _ _ _ _ _ _ f hf, generateSql_formatter _ _ _ _ _ _ f hf]
    rcases lookupFormatter_builtin hf with h | h | h <;> subst h
    · rw [show ({ defaultFormatter with
            formatStatement := sqlserverFormatStatement } : SqlFormatter).formatStatement =
          sqlserverFormatStatement from rfl,
          show ({ defaultFormatter with
            formatStatement := sqlserverFormatStatement } : SqlFormatter).formatColumn =
          doubleQuoteColumn from rfl]
      rw [sqlserverFormatStatement_where _ _ _ _ _ refId rfl,
          sqlserverFormatStatement_where _ _ _ _ _ bodyId rfl]
      rw [hgen doubleQuoteColumn [] (List.not_mem_nil refId)]
    · rw [show defaultFormatter.formatStatement = defaultFormatStatement from rfl,
          show defaultFormatter.formatColumn = doubleQuoteColumn from rfl]
      rw [defaultFormatStatement_where _ _ _ _ _ refId rfl,
          defaultFormatStatement_where _ _ _ _ _ bodyId rfl]
      rw [hgen doubleQuoteColumn [] (List.not_mem_nil refId)]
    · rw [show ({ defaultFormatter with
            formatColumn := backtickColumn } : SqlFormatter).formatStatement =
          defaultFormatStatement from rfl,
          show ({ defaultFormatter with
            formatColumn := backtickColumn } : SqlFormatter).formatColumn =
          backtickColumn from rfl]
      rw [defaultFormatStatement_where _ _ _ _ _ refId rfl,
          defaultFormatStatement_where _ _ _ _ _ bodyId rfl]
      rw [hgen backtickColumn [] (List.not_mem_nil refId)]

/-- Witness for C3: on the two-level chain `where → outer → inner →
field 1`, the reference renders as its body at both levels, so by
chaining the theorem the two-level reference compiles exactly as the
fully-inlined field reference, at the renderer and at the façade. -/
theorem macro_inlining_witness :
    defaultFormatOperator macroChainStore macroChainMacros [(1, "id")]
      doubleQuoteColumn 0 [] =
      defaultFormatOperator macroChainStore macroChainMacros [(1, "id")]
      doubleQuoteColumn 2 [] ∧
    generateSql (some "data") macroChainMacros macroChainStore "postgres"
      [(1, "id")] { limit := none, whereClause := some 0 } =
      generateSql (some "data") macroChainMacros macroChainStore "postgres"
      [(1, "id")] { limit := none, whereClause := some 2 } := by
  have hrk : ∀ x y, y ∈ childIds macroChainStore macroChainMacros x →
      (fun z => 2 - z) y < (fun z => 2 - z) x := by
    intro x y hy
    have hx : x ∈ storeIds macroChainStore := childIds_mem_store hy
    have hx' : x = 0 ∨ x = 1 ∨ x = 2 := by
      simpa [storeIds, macroChainStore] using hx
    rcases hx' with rfl | rfl | rfl
    · rw [show childIds macroChainStore macroChainMacros 0 = [1] from rfl] at hy
      rw [List.mem_singleton.mp hy]
      decide
    · rw [show childIds macroChainStore macroChainMacros 1 = [2] from rfl] at hy
      rw [List.mem_singleton.mp hy]
      decide
    · rw [show childIds macroChainStore macroChainMacros 2 = [] from rfl] at hy
      exact absurd hy (List.not_mem_nil y)
  have hacyc : AcyclicGraph macroChainStore macroChainMacros :=
    acyclic_of_rank macroChainStore macroChainMacros (fun z => 2 - z) hrk
  have h0 := macro_inlining macroChainStore macroChainMacros [(1, "id")]
    doubleQuoteColumn 0 1 "outer" [] (some "data") none
    (by decide) (by decide) hacyc (List.not_mem_nil 0)
  have h1 := macro_inlining macroChainStore macroChainMacros [(1, "id")]
    doubleQuoteColumn 1 2 "inner" [] (some "data") none
    (by decide) (by decide) hacyc (List.not_mem_nil 1)
  exact ⟨h0.1.trans h1.1, (h0.2 "postgres").trans (h1.2 "postgres")⟩

theorem formatOperator_macro_step (store : Store) (macros : List (String × Nat))
    (fields : List (Nat × String)) (formatColumn : String → String)
    (id bodyId : Nat) (name : String) (visited : List Nat)
    (hvis : id ∉ visited)
    (hfind : lookupNode store id = some (SqlNode.macroRef name))
    (hmac : lookupMacro macros name = some bodyId) :
    defaultFormatOperator store macros fields formatColumn id visited =
      defaultFormatOperator store macros fields formatColumn bodyId
        (visited ++ [id]) := by
  rw [defaultFormatOperator_eq _ _ _ _ _ _ _ hvis hfind]
  simp only [formatNode]
  rw [hmac]

/-- Counterexample to C3 as stated: an acyclic macro table and a
where-expression containing a macro reference (node 0, the repository's
`supports nested macros` test) whose compile differs from the compile of
the same expression with the macro's body substituted inline at the
reference position (node 8).  The reference, whose own tag is `macro`, is
never parenthesized under the enclosing `and`, while the inlined body, an
`and` node, is — so the claim's inline-substitution equality fails. -/
theorem macro_inlining_counterexample :
    AcyclicGraph nestedMacroStore nestedMacroMacros ∧
    lookupNode nestedMacroStore 2 = some (SqlNode.macroRef "is_adult_joe") ∧
    lookupMacro nestedMacroMacros "is_adult_joe" = some 3 ∧
    generateSql (some "data") nestedMacroMacros nestedMacroStore "postgres"
      exampleFields { limit := none, whereClause := some 0 } =
      SqlResult.ok
        "SELECT * FROM data WHERE \"id\" < 5 AND \"name\" = 'joe' AND \"age\" > 18;" ∧
    generateSql (some "data") nestedMacroMacros nestedMacroStore "postgres"
      exampleFields { limit := none, whereClause := some 8 } =
      SqlResult.ok
        "SELECT * FROM data WHERE \"id\" < 5 AND (\"name\" = 'joe' AND \"age\" > 18);" ∧
    generateSql (some "data") nestedMacroMacros nestedMacroStore "postgres"
      exampleFields { limit := none, whereClause := some 0 } ≠
    generateSql (some "data") nestedMacroMacros nestedMacroStore "postgres"
      exampleFields { limit := none, whereClause := some 8 } := by
  have hacyc : AcyclicGraph nestedMacroStore nestedMacroMacros := by
    apply acyclic_of_rank nestedMacroStore nestedMacroMacros
      (fun x => if x = 0 ∨ x = 8 then 5 else if x = 2 then 4 else
        if x = 3 then 3 else if x = 4 ∨ x = 5 then 2 else 0)
    intro x y hy
    have hx : x ∈ storeIds nestedMacroStore := childIds_mem_store hy
    have hx' : x = 0 ∨ x = 1 ∨ x = 2 ∨ x = 3 ∨ x = 4 ∨ x = 5 ∨ x = 6 ∨
        x = 7 ∨ x = 8 := by
      simpa [storeIds, nestedMacroStore] using hx
    rcases hx' with rfl | rfl | rfl | rfl | rfl | rfl | rfl | rfl | rfl
    · rw [show childIds nestedMacroStore nestedMacroMacros 0 = [1, 2] from rfl] at hy
      simp only [List.mem_cons, List.not_mem_nil, or_false] at hy
      rcases hy with rfl | rfl <;> decide
    · rw [show childIds nestedMacroStore nestedMacroMacros 1 = [] from rfl] at hy
      exact absurd hy (List.not_mem_nil y)
    · rw [show childIds nestedMacroStore nestedMacroMacros 2 = [3] from rfl] at hy
      rw [List.mem_singleton.mp hy]
      decide
    · rw [show childIds nestedMacroStore nestedMacroMacros 3 = [4, 5] from rfl] at hy
      simp only [List.mem_cons, List.not_mem_nil, or_false] at hy
      rcases hy with rfl | rfl <;> decide
    · rw [show childIds nestedMacroStore nestedMacroMacros 4 = [6] from rfl] at hy
      rw [List.mem_singleton.mp hy]
      decide
    · rw [show childIds nestedMacroStore nestedMacroMacros 5 = [7] from rfl] at hy
      rw [List.mem_singleton.mp hy]
      decide
    · rw [show childIds nestedMacroStore nestedMacroMacros 6 = [] from rfl] at hy
      exact absurd hy (List.not_mem_nil y)
    · rw [show childIds nestedMacroStore nestedMacroMacros 7 = [] from rfl] at hy
      exact absurd hy (List.not_mem_nil y)
    · rw [show childIds nestedMacroStore nestedMacroMacros 8 = [1, 3] from rfl] at hy
      simp only [List.mem_cons, List.not_mem_nil, or_false] at hy
      rcases hy with rfl | rfl <;> decide
  have e6 : defaultFormatOperator nestedMacroStore nestedMacroMacros exampleFields
      doubleQuoteColumn 6 (((([] ++ [0]) ++ [2]) ++ [3]) ++ [4]) =
      Except.ok "\"name\" = 'joe'" := by
    rw [defaultFormatOperator_eq _ _ _ _ _ _
      (SqlNode.eq (SqlValue.field 2) [SqlValue.str "joe"]) (by decide) (by decide)]
    rfl
  have e7 : defaultFormatOperator nestedMacroStore nestedMacroMacros exampleFields
      doubleQuoteColumn 7 (((([] ++ [0]) ++ [2]) ++ [3]) ++ [5]) =
      Except.ok "\"age\" > 18" := by
    rw [defaultFormatOperator_eq _ _ _ _ _ _
      (SqlNode.gt (SqlValue.field 4) (SqlValue.num 18)) (by decide) (by decide)]
    rfl
  have e4 : defaultFormatOperator nestedMacroStore nestedMacroMacros exampleFields
      doubleQuoteColumn 4 ((([] ++ [0]) ++ [2]) ++ [3]) =
      Except.ok "\"name\" = 'joe'" :=
    (formatOperator_macro_step _ _ _ _ 4 6 "is_joe" _
      (by decide) (by decide) (by decide)).trans e6
  have e5 : defaultFormatOperator nestedMacroStore nestedMacroMacros exampleFields
      doubleQuoteColumn 5 ((([] ++ [0]) ++ [2]) ++ [3]) =
      Except.ok "\"age\" > 18" :=
    (formatOperator_macro_step _ _ _ _ 5 7 "is_adult" _
      (by decide) (by decide) (by decide)).trans e7
  have e3 : defaultFormatOperator nestedMacroStore nestedMacroMacros exampleFields
      doubleQuoteColumn 3 (([] ++ [0]) ++ [2]) =
      Except.ok "\"name\" = 'joe' AND \"age\" > 18" := by
    rw [defaultFormatOperator_eq _ _ _ _ _ _ (SqlNode.and 4 5) (by decide) (by decide)]
    rw [formatNode, e4, e5]
    rfl
  have e2 : defaultFormatOperator nestedMacroStore nestedMacroMacros exampleFields
      doubleQuoteColumn 2 ([] ++ [0]) =
      Except.ok "\"name\" = 'joe' AND \"age\" > 18" :=
    (formatOperator_macro_step _ _ _ _ 2 3 "is_adult_joe" _
      (by decide) (by decide) (by decide)).trans e3
  have e1 : defaultFormatOperator nestedMacroStore nestedMacroMacros exampleFields
      doubleQuoteColumn 1 ([] ++ [0]) = Except.ok "\"id\" < 5" := by
    rw [defaultFormatOperator_eq _ _ _ _ _ _
      (SqlNode.lt (SqlValue.field 1) (SqlValue.num 5)) (by decide) (by decide)]
    rfl
  have e0 : defaultFormatOperator nestedMacroStore nestedMacroMacros exampleFields
      doubleQuoteColumn 0 [] =
      Except.ok "\"id\" < 5 AND \"name\" = 'joe' AND \"age\" > 18" := by
    rw [defaultFormatOperator_eq _ _ _ _ _ _ (SqlNode.and 1 2) (by decide) (by decide)]
    rw [formatNode, e1, e2]
    rfl
  have f6 : defaultFormatOperator nestedMacroStore nestedMacroMacros exampleFields
      doubleQuoteColumn 6 ((([] ++ [8]) ++ [3]) ++ [4]) =
      Except.ok "\"name\" = 'joe'" := by
    rw [defaultFormatOperator_eq _ _ _ _ _ _
      (SqlNode.eq (SqlValue.field 2) [SqlValue.str "joe"]) (by decide) (by decide)]
    rfl
  have f7 : defaultFormatOperator nestedMacroStore nestedMacroMacros exampleFields
      doubleQuoteColumn 7 ((([] ++ [8]) ++ [3]) ++ [5]) =
      Except.ok "\"age\" > 18" := by
    rw [defaultFormatOperator_eq _ _ _ _ _ _
      (SqlNode.gt (SqlValue.field 4) (SqlValue.num 18)) (by decide) (by decide)]
    rfl
  have f4 : defaultFormatOperator nestedMacroStore nestedMacroMacros exampleFields
      doubleQuoteColumn 4 (([] ++ [8]) ++ [3]) = Except.ok "\"name\" = 'joe'" :=
    (formatOperator_macro_step _ _ _ _ 4 6 "is_joe" _
      (by decide) (by decide) (by decide)).trans f6
  have f5 : defaultFormatOperator nestedMacroStore nestedMacroMacros exampleFields
      doubleQuoteColumn 5 (([] ++ [8]) ++ [3]) = Except.ok "\"age\" > 18" :=
    (formatOperator_macro_step _ _ _ _ 5 7 "is_adult" _
      (by decide) (by decide) (by decide)).trans f7
  have f3 : defaultFormatOperator nestedMacroStore nestedMacroMacros exampleFields
      doubleQuoteColumn 3 ([] ++ [8]) =
      Except.ok "\"name\" = 'joe' AND \"age\" > 18" := by
    rw [defaultFormatOperator_eq _ _ _ _ _ _ (SqlNode.and 4 5) (by decide) (by decide)]
    rw [formatNode, f4, f5]
    rfl
  have f1 : defaultFormatOperator nestedMacroStore nestedMacroMacros exampleFields
      doubleQuoteColumn 1 ([] ++ [8]) = Except.ok "\"id\" < 5" := by
    rw [defaultFormatOperator_eq _ _ _ _ _ _
      (SqlNode.lt (SqlValue.field 1) (SqlValue.num 5)) (by decide) (by decide)]
    rfl
  have f8 : defaultFormatOperator nestedMacroStore nestedMacroMacros exampleFields
      doubleQuoteColumn 8 [] =
      Except.ok "\"id\" < 5 AND (\"name\" = 'joe' AND \"age\" > 18)" := by
    rw [defaultFormatOperator_eq _ _ _ _ _ _ (SqlNode.and 1 3) (by decide) (by decide)]
    rw [formatNode, f1, f3]
    rfl
  have g0 : generateSql (some "data") nestedMacroMacros nestedMacroStore "postgres"
      exampleFields { limit := none, whereClause := some 0 } =
      SqlResult.ok
        "SELECT * FROM data WHERE \"id\" < 5 AND \"name\" = 'joe' AND \"age\" > 18;" := by
    rw [generateSql_formatter _ _ _ _ _ _ _ lookupFormatter_postgres]
    rw [show defaultFormatter.formatStatement = defaultFormatStatement from rfl,
        show defaultFormatter.formatColumn = doubleQuoteColumn from rfl]
    rw [defaultFormatStatement_where _ _ _ _ _ 0 rfl, e0]
    rfl
  have g8 : generateSql (some "data") nestedMacroMacros nestedMacroStore "postgres"
      exampleFields { limit := none, whereClause := some 8 } =
      SqlResult.ok
        "SELECT * FROM data WHERE \"id\" < 5 AND (\"name\" = 'joe' AND \"age\" > 18);" := by
    rw [generateSql_formatter _ _ _ _ _ _ _ lookupFormatter_postgres]
    rw [show defaultFormatter.formatStatement = defaultFormatStatement from rfl,
        show defaultFormatter.formatColumn = doubleQuoteColumn from rfl]
    rw [defaultFormatStatement_where _ _ _ _ _ 8 rfl, f8]
    rfl
  refine ⟨hacyc, rfl, rfl, g0, g8, ?_⟩
  rw [g0, g8]
  decide
